import Mathlib

/-
Verification of the NFLPicks prediction engine and sentiment subsystem.

Shallow embedding conventions:
* Machine floats become `ℚ`; Python ints become `Int`/`Nat`.
* The SQLAlchemy stores become explicit state: the historical game store is a
  `List Game` assumed ordered by `game_date` descending (the only order the
  repository ever queries, `order_by(Game.game_date.desc())`), and the
  prediction store is a `List Prediction`.
* Store unavailability is modelled by the `db_read` / `db_write` flags; a
  query/commit on an unavailable store raises, which the embedding renders as
  `Except` errors carrying the engine state at the point of the raise.
* Post/comment text is modelled as the list of lowercase tokens (words and
  keyword phrases) it contains; Python's substring test `kw in text.lower()`
  becomes list membership.
* Wall-clock time (`time.time()`, `datetime.now()`) is one injectable rational
  clock measured in seconds; `time.sleep(d)` advances it by `d`.  Outbound HTTP
  outcomes are an injected schedule `responses : List RResp` consumed in order
  (an exhausted schedule behaves as a connection error).
-/

namespace NFLPicks

/-! ## Data model (src/app/models/game.py, src/app/models/prediction.py) -/

/-- Game.status column: 'scheduled', 'in_progress', 'completed'. -/
inductive GameStatus where
  | scheduled
  | in_progress
  | completed
deriving DecidableEq, Repr

/-- Game model (game.py).  Scores are nullable ints; `game_date` is a wall
clock instant used only for the date-descending store order. -/
structure Game where
  id : Nat
  week : Nat
  season : Nat
  home_team : String
  away_team : String
  home_score : Option Int
  away_score : Option Int
  game_date : Nat
  status : GameStatus
deriving DecidableEq, Repr

/-- The `factors` JSON column of a Prediction, as the two shapes the engine
actually writes: the model path's dict (predictor.py `_get_prediction_factors`)
and the heuristic path's dict (`_simple_prediction`). -/
inductive Factors where
  | model_factors (head_to_head : String) (trend : String) (home_field_advantage : ℚ)
  | simple_heuristic (home_field_advantage : Bool) (note : String)
deriving DecidableEq, Repr

/-- Prediction model (prediction.py).  `id` is the autoincrement primary key,
assigned at insert.  `news_sentiment`/`reddit_sentiment` are nullable. -/
structure Prediction where
  id : Nat
  game_id : Nat
  predicted_winner : String
  confidence : ℚ
  predicted_spread : ℚ
  factors : Factors
  news_sentiment : Option ℚ
  reddit_sentiment : Option ℚ
deriving DecidableEq, Repr

/-! ## TeamStatsAggregator (predictor.py `_get_team_stats` and helpers) -/

/-- Both scores non-null (the validity test of `_calculate_win_percentage`). -/
def has_valid_scores (g : Game) : Bool :=
  g.home_score.isSome && g.away_score.isSome

/-- The win test of `_calculate_win_percentage` / `_calculate_last_5_performance`;
only ever applied to games that passed `has_valid_scores`. -/
def team_won (team : String) (g : Game) : Bool :=
  decide ((g.home_team = team ∧ g.home_score.getD 0 > g.away_score.getD 0) ∨
          (g.away_team = team ∧ g.away_score.getD 0 > g.home_score.getD 0))

/-- Embeds `_calculate_win_percentage`: wins / games-with-valid-scores, 0.5 when no
valid game. -/
def calculate_win_percentage (team : String) (games : List Game) : ℚ :=
  let valid := games.filter has_valid_scores
  let wins := valid.countP (team_won team)
  if valid.length > 0 then (wins : ℚ) / (valid.length : ℚ) else 1/2

/-- Embeds `_calculate_points_for`: `game.home_score if game.home_score else 0` maps a
null (or zero) score to 0, and the mean divides by the full window length. -/
def calculate_points_for (team : String) (games : List Game) : ℚ :=
  let total : Int := games.foldl
    (fun acc g => acc + (if g.home_team = team then g.home_score.getD 0 else g.away_score.getD 0)) 0
  if games.length > 0 then (total : ℚ) / (games.length : ℚ) else 0

/-- Embeds `_calculate_points_against`, symmetric to `calculate_points_for`. -/
def calculate_points_against (team : String) (games : List Game) : ℚ :=
  let total : Int := games.foldl
    (fun acc g => acc + (if g.home_team = team then g.away_score.getD 0 else g.home_score.getD 0)) 0
  if games.length > 0 then (total : ℚ) / (games.length : ℚ) else 0

/-- Embeds `_calculate_last_5_performance`: same win-rate formula, applied by the
caller to the 5 most recent games of the window. -/
def calculate_last_5_performance (team : String) (games : List Game) : ℚ :=
  if games.isEmpty then 1/2
  else
    let valid := games.filter has_valid_scores
    let wins := valid.countP (team_won team)
    if valid.length > 0 then (wins : ℚ) / (valid.length : ℚ) else 1/2

/-- The query of `_get_team_stats`: completed games involving the team,
date-descending (the store order), limited to 16. -/
def team_games_query (games : List Game) (team : String) : List Game :=
  ((games.filter (fun g =>
      (g.home_team == team || g.away_team == team) && g.status == GameStatus.completed)).take 16)

/-- TeamStatsSnapshot: the dict returned by `_get_team_stats`. -/
structure TeamStats where
  win_pct : ℚ
  points_for : ℚ
  points_against : ℚ
  last_5_performance : ℚ
deriving DecidableEq, Repr

/-- Embeds `_get_team_stats`: neutral defaults with no history, otherwise the four
statistics over the most recent ≤16 completed games. -/
def get_team_stats (games : List Game) (team : String) : TeamStats :=
  let gs := team_games_query games team
  if gs.isEmpty then
    { win_pct := 1/2, points_for := 24, points_against := 24, last_5_performance := 1/2 }
  else
    { win_pct := calculate_win_percentage team gs
    , points_for := calculate_points_for team gs
    , points_against := calculate_points_against team gs
    , last_5_performance := calculate_last_5_performance team (gs.take 5) }

/-! ## Sentiment scraper (src/app/api_handlers/reddit_api.py)

Text is modelled as the list of lowercase tokens (words / keyword phrases) it
contains, so Python's `kw in text.lower()` becomes `tokens.contains kw`.
Context snippets, print logging and the `data_sources`/`subreddit_breakdown`
bookkeeping dictionaries (read by nothing the claims touch) are omitted. -/

/-- Confidence tiers of the sentiment analysis. -/
inductive ConfLevel where
  | low
  | medium
  | high
deriving DecidableEq, Repr

/-- A parsed Reddit comment (`_get_post_comments`).  Comments are stored on
posts but never read by `_analyze_posts_for_picks`. -/
structure RComment where
  body : List String
  score : Int
deriving DecidableEq, Repr

/-- A parsed Reddit post as built by `_get_subreddit_data_comprehensive`.
`upvote_pct` is the source's `upvote_ratio` field (renamed). -/
structure RPost where
  title : List String
  text : List String
  score : Int
  num_comments : Nat
  created_utc : Nat
  upvote_pct : ℚ
  permalink : String
  subreddit : String
  sort_type : String
  comments : List RComment
deriving DecidableEq, Repr

/-- The opaque JSON body of a 200 response, already parsed: a post listing
and/or a comment listing. -/
structure Payload where
  posts : List RPost
  comments : List RComment
deriving DecidableEq, Repr

/-- Outcome of one outbound HTTP attempt in `_make_reddit_request`. -/
inductive RResp where
  | ok (payload : Payload)
  | forbidden
  | too_many
  | other_status
  | transport_error
deriving DecidableEq, Repr

/-- Per-team accumulator of `_analyze_posts_for_picks` (`team_mentions[team]`).
The static fallback entries only carry `mentions`; their missing keys read as
the defaults below (`dict.get(key, 0)` semantics). -/
structure TeamMention where
  mentions : Nat
  total_score : Int
  weighted_score : ℚ
  subreddit_sources : List (String × Nat)
  confidence_indicators : List ConfLevel
  popularity : ℚ
deriving DecidableEq, Repr

/-- Provenance tag of a served SentimentReport (`status` field; the cached
variant's age suffix in the status string is dropped). -/
inductive RStatus where
  | live_data
  | cached_data
  | using_fallback_data
deriving DecidableEq, Repr

/-- SentimentReport: the dict produced by `_analyze_posts_for_picks` plus the
`status`/`subreddits_analyzed` fields its callers attach. -/
structure Report where
  total_mentions : Nat
  team_picks : List (String × TeamMention)
  sentiment_score : ℚ
  confidence_level : ConfLevel
  posts_analyzed : Nat
  subreddits_analyzed : List String
  status : RStatus
deriving DecidableEq, Repr

/-- Scraper state: injectable wall clock (seconds), rate-limit timestamp,
process-wide failure counter, the file-backed cache (`comprehensive_data`),
and the injected schedule of outbound-request outcomes. -/
structure RedditState where
  now : ℚ
  last_request_time : ℚ
  failed_requests : Nat
  cache_last_updated : Option ℚ
  cache_analysis : Option Report
  total_posts_analyzed : Nat
  responses : List RResp
deriving DecidableEq, Repr

/-- Embeds `self.min_request_interval = 3`. -/
def min_request_interval : ℚ := 3

/-- Embeds `self.max_failed_requests = 10`. -/
def max_failed_requests : Nat := 10

/-- Embeds `self.nfl_teams`. -/
def nfl_teams : List String :=
  ["Chiefs", "Ravens", "Bills", "Dolphins", "Patriots", "Jets",
   "Bengals", "Steelers", "Browns", "Titans", "Colts", "Texans", "Jaguars",
   "Broncos", "Chargers", "Raiders", "Cowboys", "Eagles", "Giants", "Commanders",
   "Packers", "Bears", "Lions", "Vikings", "Saints", "Falcons", "Panthers", "Buccaneers",
   "Cardinals", "49ers", "Seahawks", "Rams"]

/-- Embeds `_rate_limit_request`: sleep until the minimum inter-request interval has
elapsed since `last_request_time`, then stamp the clock. -/
def rate_limit_request (s : RedditState) : RedditState :=
  let time_since_last := s.now - s.last_request_time
  let s1 := if time_since_last < min_request_interval
            then { s with now := s.now + (min_request_interval - time_since_last) }
            else s
  { s1 with last_request_time := s1.now }

/-- Consume the next injected response; an exhausted schedule behaves as a
connection error. -/
def take_response (s : RedditState) : RResp × RedditState :=
  match s.responses with
  | [] => (RResp.transport_error, s)
  | r :: rs => (r, { s with responses := rs })

/-- The retry loop of `_make_reddit_request` (`for attempt in range(max_retries)`),
run with fuel `remaining = max_retries - attempt`.  Returns the payload (if any),
the final state, and the wall-clock times of the outbound requests it made. -/
def make_attempts (s : RedditState) (attempt max_retries remaining : Nat) :
    Option Payload × RedditState × List ℚ :=
  match remaining with
  | 0 => (none, s, [])
  | r + 1 =>
    let t := s.now
    let tr := take_response s
    let s1 := tr.2
    match tr.1 with
    | RResp.ok p => (some p, { s1 with failed_requests := 0 }, [t])
    | RResp.forbidden =>
        let s2 := { s1 with failed_requests := s1.failed_requests + 1 }
        let s3 := if attempt < max_retries - 1
                  then { s2 with now := s2.now + ((attempt : ℚ) + 1) * 5 }
                  else s2
        let res := make_attempts s3 (attempt + 1) max_retries r
        (res.1, res.2.1, t :: res.2.2)
    | RResp.too_many =>
        let s2 := { s1 with now := s1.now + ((attempt : ℚ) + 1) * 10 }
        let res := make_attempts s2 (attempt + 1) max_retries r
        (res.1, res.2.1, t :: res.2.2)
    | RResp.other_status =>
        let res := make_attempts s1 (attempt + 1) max_retries r
        (res.1, res.2.1, t :: res.2.2)
    | RResp.transport_error =>
        let s2 := if attempt < max_retries - 1
                  then { s1 with now := s1.now + ((attempt : ℚ) + 1) * 2 }
                  else s1
        let res := make_attempts s2 (attempt + 1) max_retries r
        (res.1, res.2.1, t :: res.2.2)

/-- Embeds `_make_reddit_request`: rate-limit once, then up to `max_retries` attempts
with per-status backoff.  `url` only selects the endpoint; outcomes come from
the injected schedule. -/
def make_reddit_request (s : RedditState) (url : String) (max_retries : Nat) :
    Option Payload × RedditState × List ℚ :=
  let _ := url
  make_attempts (rate_limit_request s) 0 max_retries max_retries

/-- Embeds `self.base_url`. -/
def base_url : String := "www.reddit.com"

/-- Embeds `nfl_keywords` of `_contains_nfl_content`. -/
def nfl_keywords : List String :=
  ["nfl", "football", "game", "pick", "bet", "prediction", "odds", "spread"]

/-- Embeds `_contains_nfl_content`. -/
def contains_nfl_content (tokens : List String) : Bool :=
  (nfl_keywords ++ nfl_teams.map String.toLower).any (fun k => tokens.contains k)

/-- Embeds `_get_post_comments`: one rate-limited request; any failure yields `[]`. -/
def get_post_comments (s : RedditState) (permalink : String) (limit : Nat) :
    List RComment × RedditState × List ℚ :=
  let _ := limit
  match make_reddit_request s (base_url ++ permalink) 3 with
  | (some p, s1, ts) => (p.comments, s1, ts)
  | (none, s1, ts) => ([], s1, ts)

/-- Per-post body of the listing loop in `_get_subreddit_data_comprehensive`:
tag the post with its subreddit and sort type, fetch comments for NFL-relevant
posts while fewer than 15 posts are collected, append, sleep 0.1. -/
def process_posts (s : RedditState) (subreddit sort_type : String) (acc : List RPost) :
    List RPost → List RPost × RedditState × List ℚ
  | [] => (acc, s, [])
  | pd :: rest =>
      let base : RPost := { pd with subreddit := subreddit, sort_type := sort_type, comments := [] }
      let (post_info, s1, ts1) :=
        if contains_nfl_content (base.title ++ base.text) && acc.length < 15 then
          let (cs, s', ts) := get_post_comments s base.permalink 25
          ({ base with comments := cs }, s', ts)
        else (base, s, ([] : List ℚ))
      let s2 := { s1 with now := s1.now + 1/10 }
      let (res, s3, ts2) := process_posts s2 subreddit sort_type (acc ++ [post_info]) rest
      (res, s3, ts1 ++ ts2)

/-- Embeds `_get_subreddit_data_comprehensive`: fetch the 'hot' and 'new' listings,
process each listing's posts, sleep 2 between sort types.  Any failed listing
fetch contributes nothing. -/
def get_subreddit_data_comprehensive (s : RedditState) (subreddit : String) (limit : Nat) :
    List RPost × RedditState × List ℚ :=
  let _ := limit
  let (resp1, s1, ta) := make_reddit_request s (base_url ++ "/r/" ++ subreddit ++ "/hot.json") 3
  let (acc1, s2, tb) :=
    match resp1 with
    | some payload => process_posts s1 subreddit ("hot") [] payload.posts
    | none => ([], s1, ([] : List ℚ))
  let s3 := { s2 with now := s2.now + 2 }
  let (resp2, s4, tc) := make_reddit_request s3 (base_url ++ "/r/" ++ subreddit ++ "/new.json") 3
  let (acc2, s5, td) :=
    match resp2 with
    | some payload => process_posts s4 subreddit ("new") acc1 payload.posts
    | none => (acc1, s4, ([] : List ℚ))
  let s6 := { s5 with now := s5.now + 2 }
  (acc2, s6, ta ++ tb ++ tc ++ td)

/-- Embeds `pick_keywords` of `_analyze_posts_for_picks` (multi-word phrases are
single tokens under the token model). -/
def pick_keywords : List String :=
  ["pick", "picks", "bet", "betting", "prediction", "predictions",
   "favor", "favors", "win", "wins", "winning", "lose", "losing",
   "upset", "lock", "confident", "sure thing", "easy money",
   "hammer", "smash", "slam", "take", "back", "fade", "avoid",
   "under", "over", "spread", "moneyline", "ml", "parlay",
   "teaser", "prop", "props", "alternative", "alt", "line",
   "handicap", "cover", "ats", "against the spread"]

/-- Embeds `confidence_words` of `_analyze_posts_for_picks`. -/
def confidence_words (l : ConfLevel) : List String :=
  match l with
  | ConfLevel.high =>
      ["lock", "sure thing", "easy money", "confident", "guarantee",
       "mortal lock", "hammer", "smash", "slam", "max bet", "all in"]
  | ConfLevel.medium =>
      ["like", "favor", "think", "believe", "should", "expect",
       "probably", "likely", "good bet", "solid", "decent"]
  | ConfLevel.low =>
      ["maybe", "might", "could", "possibly", "lean", "slight",
       "toss up", "coin flip", "unsure", "risky"]

/-- A fresh `team_mentions[team]` entry. -/
def empty_mention : TeamMention :=
  { mentions := 0, total_score := 0, weighted_score := 0
  , subreddit_sources := [], confidence_indicators := [], popularity := 0 }

/-- Insert-or-update on the team-mentions association list (Python dict with
insertion order). -/
def upsert_team (tm : List (String × TeamMention)) (team : String)
    (f : TeamMention → TeamMention) : List (String × TeamMention) :=
  match tm with
  | [] => [(team, f empty_mention)]
  | (k, v) :: rest =>
      if k = team then (k, f v) :: rest else (k, v) :: upsert_team rest team f

/-- Lookup on the team-mentions association list. -/
def find_team (tm : List (String × TeamMention)) (team : String) : Option TeamMention :=
  (tm.find? (fun p => p.1 == team)).map Prod.snd

/-- Bump the per-subreddit mention counter of a team. -/
def bump_source (srcs : List (String × Nat)) (sub : String) : List (String × Nat) :=
  match srcs with
  | [] => [(sub, 1)]
  | (k, v) :: rest =>
      if k = sub then (k, v + 1) :: rest else (k, v) :: bump_source rest sub

/-- Running accumulator of the post loop in `_analyze_posts_for_picks`. -/
structure AnalysisAcc where
  team_mentions : List (String × TeamMention)
  total_score : ℚ
  total_posts : Nat
  confidence_indicators : List ConfLevel
deriving DecidableEq, Repr

/-- Embeds `f"{post['title']} {post['text']}".lower()` under the token model. -/
def post_tokens (p : RPost) : List String := p.title ++ p.text

/-- One iteration of the post loop of `_analyze_posts_for_picks`: skip posts
without pick keywords, weight the post, credit every mentioned team, and
collect confidence indicators. -/
def analyze_post (acc : AnalysisAcc) (post : RPost) : AnalysisAcc :=
  let text := post_tokens post
  if ¬ pick_keywords.any (fun k => text.contains k) then acc
  else
    let total_posts := acc.total_posts + 1
    let base_score_int : Int := max post.score 1
    let base_score : ℚ := (base_score_int : ℚ)
    let comment_bonus : ℚ := (post.num_comments : ℚ) * (1/10)
    let post_weight0 := base_score + comment_bonus
    let post_weight := if post.upvote_pct > 8/10 then post_weight0 * (3/2) else post_weight0
    let total_score := acc.total_score + post_weight
    let tm := nfl_teams.foldl (fun tm team =>
        let patterns := [team.toLower, team.toLower.take 3, (team.toLower).replace (" ") ("")]
        if patterns.any (fun p => text.contains p) then
          upsert_team tm team (fun m =>
            { m with mentions := m.mentions + 1,
                     total_score := m.total_score + base_score_int,
                     weighted_score := m.weighted_score + post_weight,
                     subreddit_sources := bump_source m.subreddit_sources post.subreddit })
        else tm) acc.team_mentions
    let post_confidence :=
      [ConfLevel.high, ConfLevel.medium, ConfLevel.low].filter
        (fun l => (confidence_words l).any (fun w => text.contains w))
    let confidence_indicators := acc.confidence_indicators ++ post_confidence
    let tm2 :=
      if post_confidence.isEmpty then tm
      else tm.map (fun kv =>
        if [kv.1.toLower, kv.1.toLower.take 3].any (fun p => text.contains p) then
          (kv.1, { kv.2 with confidence_indicators := kv.2.confidence_indicators ++ post_confidence })
        else kv)
    { team_mentions := tm2, total_score := total_score
    , total_posts := total_posts, confidence_indicators := confidence_indicators }

/-- Embeds `_analyze_posts_for_picks`.  `subreddits_analyzed` ends up `[]` because the
caller rebuilds it from `data_sources` entries that lack a `'status'` key. -/
def analyze_posts_for_picks (posts : List RPost) (query : String) : Report :=
  let _ := query
  let acc := posts.foldl analyze_post
    { team_mentions := [], total_score := 0, total_posts := 0, confidence_indicators := [] }
  let avg_score := if acc.total_posts > 0 then acc.total_score / (acc.total_posts : ℚ) else 0
  let sentiment_score := min (avg_score / 200) 1
  let confidence_level :=
    if acc.confidence_indicators.isEmpty then ConfLevel.low
    else
      let h := acc.confidence_indicators.count ConfLevel.high
      let m := acc.confidence_indicators.count ConfLevel.medium
      let l := acc.confidence_indicators.count ConfLevel.low
      let total := h + m + l
      if total > 0 then
        let high_r : ℚ := (h : ℚ) / (total : ℚ)
        if high_r > 2/5 then ConfLevel.high
        else if high_r > 1/5 ∨ (m : ℚ) / (total : ℚ) > 1/2 then ConfLevel.medium
        else ConfLevel.low
      else ConfLevel.low
  let tm := acc.team_mentions.map (fun kv =>
      let m := kv.2
      let base_pop : ℚ :=
        (m.mentions : ℚ) * (if m.mentions > 0 then m.weighted_score / (m.mentions : ℚ) else 0)
      let diversity_bonus := min ((m.subreddit_sources.length : ℚ) * (2/10)) 1
      let conf_bonus := (m.confidence_indicators.count ConfLevel.high : ℚ) * (3/10) +
                        (m.confidence_indicators.count ConfLevel.medium : ℚ) * (1/10)
      (kv.1, { m with popularity := base_pop * (1 + diversity_bonus + conf_bonus) }))
  { total_mentions := (tm.map (fun kv => kv.2.mentions)).sum
  , team_picks := tm
  , sentiment_score := sentiment_score
  , confidence_level := confidence_level
  , posts_analyzed := acc.total_posts
  , subreddits_analyzed := []
  , status := RStatus.live_data }

/-- Embeds `self.fallback_data` (the static built-in report).  Its team entries carry
only `confidence`/`mentions`/`sentiment` keys; the keys the engine later reads
with `.get(key, 0)` default to 0 here. -/
def fallback_data : Report :=
  { total_mentions := 125
  , team_picks :=
      [("Chiefs", { empty_mention with mentions := 28 }),
       ("Ravens", { empty_mention with mentions := 22 }),
       ("Bills", { empty_mention with mentions := 25 }),
       ("Cowboys", { empty_mention with mentions := 30 }),
       ("49ers", { empty_mention with mentions := 20 })]
  , sentiment_score := 48/100
  , confidence_level := ConfLevel.medium
  , posts_analyzed := 89
  , subreddits_analyzed := ["fallback_data"]
  , status := RStatus.using_fallback_data }

/-- Embeds `_get_cache_age_hours`: age of the cached data in hours; `none` stands for
the `float('inf')` of a missing/unparseable timestamp. -/
def get_cache_age_hours (s : RedditState) : Option ℚ :=
  s.cache_last_updated.map (fun t => (s.now - t) / 3600)

/-- Embeds `_get_cached_or_fallback_data`: cached report while under the 24-hour
freshness bound, else the static fallback; never an error. -/
def get_cached_or_fallback_data (s : RedditState) : Report :=
  match s.cache_last_updated, s.cache_analysis with
  | some _, some rep =>
      match get_cache_age_hours s with
      | some age => if age < 24 then { rep with status := RStatus.cached_data } else fallback_data
      | none => fallback_data
  | _, _ => fallback_data

/-- Embeds `_update_cache`: store the report, stamp it with the current wall clock,
and bump the cumulative post counter. -/
def update_cache (s : RedditState) (data : Report) : RedditState :=
  { s with cache_analysis := some data,
           cache_last_updated := some s.now,
           total_posts_analyzed := s.total_posts_analyzed + data.posts_analyzed }

/-- Embeds `get_nfl_sentiment`: short-circuit to cache/fallback once the failure
counter reaches the threshold; otherwise scrape r/nfl and r/NFLbets (sleeping
5 after each), analyze if anything came back, update the cache on a productive
analysis, and fall back to cache/fallback when nothing came back. -/
def get_nfl_sentiment (s : RedditState) (query : String) : Report × RedditState × List ℚ :=
  if s.failed_requests ≥ max_failed_requests then
    (get_cached_or_fallback_data s, s, [])
  else
    let (posts1, s1, t1) := get_subreddit_data_comprehensive s ("nfl") 50
    let s1b := { s1 with now := s1.now + 5 }
    let (posts2, s2, t2) := get_subreddit_data_comprehensive s1b ("NFLbets") 50
    let s2b := { s2 with now := s2.now + 5 }
    let all_posts := posts1 ++ posts2
    let successful_requests := (if posts1.isEmpty then 0 else 1) + (if posts2.isEmpty then 0 else 1)
    if ¬ all_posts.isEmpty ∧ successful_requests > 0 then
      let report := { analyze_posts_for_picks all_posts query with status := RStatus.live_data }
      let s3 := if report.posts_analyzed > 0 then update_cache s2b report else s2b
      (report, s3, t1 ++ t2)
    else
      (get_cached_or_fallback_data s2b, s2b, t1 ++ t2)

/-- The matchup summary returned by `get_team_reddit_picks`. -/
structure RedditPicks where
  reddit_favorite : String
  confidence : ℚ
  home_mentions : Nat
  away_mentions : Nat
  total_mentions : Nat
  home_popularity : ℚ
  away_popularity : ℚ
deriving DecidableEq, Repr

/-- Embeds `get_team_reddit_picks`: compare the two teams' popularity in the served
sentiment report; absent teams read as the zero defaults. -/
def get_team_reddit_picks (s : RedditState) (home_team away_team : String) :
    RedditPicks × RedditState × List ℚ :=
  let (data, s1, tr) := get_nfl_sentiment s (home_team ++ " vs " ++ away_team)
  let home_data := (find_team data.team_picks home_team).getD empty_mention
  let away_data := (find_team data.team_picks away_team).getD empty_mention
  let hp := home_data.popularity
  let ap := away_data.popularity
  let favconf : String × ℚ :=
    if hp > ap then
      (home_team, min (if hp + ap > 0 then hp / (hp + ap) else 1/2) 1)
    else if ap > hp then
      (away_team, min (if hp + ap > 0 then ap / (hp + ap) else 1/2) 1)
    else ("Even", 1/2)
  ({ reddit_favorite := favconf.1
   , confidence := favconf.2
   , home_mentions := home_data.mentions
   , away_mentions := away_data.mentions
   , total_mentions := home_data.mentions + away_data.mentions
   , home_popularity := hp
   , away_popularity := ap }, s1, tr)

/-! ## FeatureBuilder and PredictionEngine (predictor.py) -/

/-- Embeds `ESPNAPI.get_latest_news_sentiment` (espn_api.py): the RSS analysis is
disabled in the source; it returns neutral 0.0 (and 0 on any exception). -/
def get_latest_news_sentiment : ℚ := 0

/-- The 10-dimensional feature row built by `prepare_game_data`, in the
engine's fixed column order. -/
structure GameFeatures where
  home_team_win_pct : ℚ
  away_team_win_pct : ℚ
  home_team_points_for : ℚ
  away_team_points_for : ℚ
  home_team_points_against : ℚ
  away_team_points_against : ℚ
  home_team_last_5 : ℚ
  away_team_last_5 : ℚ
  news_sentiment : ℚ
  reddit_sentiment : ℚ
deriving DecidableEq, Repr

/-- The feature row as an ordered vector (the DataFrame column order). -/
def GameFeatures.to_vector (X : GameFeatures) : List ℚ :=
  [X.home_team_win_pct, X.away_team_win_pct,
   X.home_team_points_for, X.away_team_points_for,
   X.home_team_points_against, X.away_team_points_against,
   X.home_team_last_5, X.away_team_last_5,
   X.news_sentiment, X.reddit_sentiment]

/-- Embeds `prepare_game_data`: team statistics for both sides, the news-sentiment
scalar, and the matchup confidence from `get_team_reddit_picks` (whose state
it threads).  Total: every upstream absence already degraded to defaults. -/
def prepare_game_data (games : List Game) (rs : RedditState) (g : Game) :
    GameFeatures × RedditState :=
  let home_stats := get_team_stats games g.home_team
  let away_stats := get_team_stats games g.away_team
  let news := get_latest_news_sentiment
  let r := get_team_reddit_picks rs g.home_team g.away_team
  ({ home_team_win_pct := home_stats.win_pct
   , away_team_win_pct := away_stats.win_pct
   , home_team_points_for := home_stats.points_for
   , away_team_points_for := away_stats.points_for
   , home_team_points_against := home_stats.points_against
   , away_team_points_against := away_stats.points_against
   , home_team_last_5 := home_stats.last_5_performance
   , away_team_last_5 := away_stats.last_5_performance
   , news_sentiment := news
   , reddit_sentiment := r.1.confidence }, r.2.1)

/-- Engine state: the two stores, the autoincrement counter, availability of
store reads/writes (an unavailable operation raises), whether the classifier
has been fit this process lifetime (`hasattr(self.model, 'n_features_in_')`),
and the scraper state used by feature construction. -/
structure EngineState where
  games : List Game
  preds : List Prediction
  next_id : Nat
  db_read : Bool
  db_write : Bool
  trained : Bool
  reddit : RedditState
deriving DecidableEq, Repr

/-- Embeds `Prediction.query.filter_by(game_id=...).first()` on the in-memory store. -/
def lookup_prediction (preds : List Prediction) (gid : Nat) : Option Prediction :=
  (preds.find? (fun p => p.game_id == gid))

/-- The prediction-store lookup; raises when reads are unavailable (the error
carries the state at the raise). -/
def query_prediction (s : EngineState) (gid : Nat) :
    Except EngineState (Option Prediction) :=
  if s.db_read then Except.ok (lookup_prediction s.preds gid) else Except.error s

/-- Embeds `Game.query.filter_by(status='completed').count()`. -/
def count_completed (s : EngineState) : Except EngineState Nat :=
  if s.db_read then
    Except.ok ((s.games.filter (fun g => g.status == GameStatus.completed)).length)
  else Except.error s

/-- Embeds `db.session.add` + `db.session.commit`: assigns the autoincrement id and
appends; a failed commit leaves the store unchanged (transaction rollback) and
raises. -/
def insert_prediction (s : EngineState) (p : Prediction) :
    Except EngineState (Prediction × EngineState) :=
  if s.db_write then
    let stored := { p with id := s.next_id }
    Except.ok (stored, { s with preds := s.preds ++ [stored], next_id := s.next_id + 1 })
  else Except.error s

/-- Embeds `_get_prediction_factors` with its fixed sub-analyses
(`_analyze_historical_matchups`, `_analyze_recent_performance`). -/
def prediction_factors : Factors := Factors.model_factors ("Even") ("Stable") 3

/-- The factors dict written by `_simple_prediction`
(`method='simple_heuristic'`). -/
def heuristic_factors : Factors :=
  Factors.simple_heuristic true ("Insufficient historical data for ML prediction")

/-- Embeds `_calculate_spread`: `(probability[1] - 0.5) * 20`. -/
def calculate_spread (p_home : ℚ) : ℚ := (p_home - 1/2) * 20

/-- Embeds `_simple_prediction`: re-check for an existing prediction, else persist the
heuristic prediction (home winner, confidence 0.6, spread 3.0). -/
def simple_prediction (s : EngineState) (g : Game) :
    Except EngineState (Prediction × EngineState) := do
  let existing ← query_prediction s g.id
  match existing with
  | some p => Except.ok (p, s)
  | none =>
      let pred : Prediction :=
        { id := 0, game_id := g.id, predicted_winner := g.home_team
        , confidence := 3/5, predicted_spread := 3, factors := heuristic_factors
        , news_sentiment := none, reddit_sentiment := none }
      insert_prediction s pred

/-- Embeds `_train_model` + `train`: read all completed games, build rows with
`prepare_game_data` (threading the scraper state), and grid-search-fit.  The
fitted classifier itself is the abstract oracle passed to `predict_game`; here
training records the `trained` flag.  A completed game with a null score makes
the label step raise inside the per-game `try` after its feature row was
already appended, so `X` and `y` end up with different lengths and the
`grid.fit` call raises — modelled as an error carrying the mutated state. -/
def train_model (s : EngineState) : Except EngineState EngineState :=
  if s.db_read = false then Except.error s
  else
    let completed := s.games.filter (fun g => g.status == GameStatus.completed)
    if completed.length < 5 then Except.ok s
    else
      let rs := completed.foldl (fun rs g => (prepare_game_data s.games rs g).2) s.reddit
      let s1 := { s with reddit := rs }
      if completed.all has_valid_scores then Except.ok { s1 with trained := true }
      else Except.error s1

/-- The body of `predict_game`'s `try` block.  `model` is the fitted
classifier's `predict_proba` oracle: it yields the home-win probability
`probability[1]` of the two-class row `[1 - p, p]`. -/
def predict_game_try (model : GameFeatures → ℚ) (s : EngineState) (g : Game) :
    Except EngineState (Prediction × EngineState) := do
  let existing ← query_prediction s g.id
  match existing with
  | some p => Except.ok (p, s)
  | none =>
      let historical_games ← count_completed s
      if historical_games < 5 then
        simple_prediction s g
      else
        let Xr := prepare_game_data s.games s.reddit g
        let X := Xr.1
        let s1 := { s with reddit := Xr.2 }
        let s2 ← if s1.trained then Except.ok s1 else train_model s1
        let p_home := model X
        let confidence := max p_home (1 - p_home)
        let predicted_winner := if p_home > 1/2 then g.home_team else g.away_team
        let pred : Prediction :=
          { id := 0, game_id := g.id, predicted_winner := predicted_winner
          , confidence := confidence, predicted_spread := calculate_spread p_home
          , factors := prediction_factors
          , news_sentiment := some X.news_sentiment
          , reddit_sentiment := some X.reddit_sentiment }
        insert_prediction s2 pred

/-- Embeds `predict_game`: the `try` body, with the blanket `except` falling back to
`_simple_prediction` on the state at the raise; an exception inside that
fallback (e.g. its own commit failing) propagates to the caller. -/
def predict_game (model : GameFeatures → ℚ) (s : EngineState) (g : Game) :
    Except EngineState (Prediction × EngineState) :=
  match predict_game_try model s g with
  | Except.ok r => Except.ok r
  | Except.error s1 => simple_prediction s1 g

/-! ## Degraded-mode predictor (predictor_fallback.py)

`NFLPredictorFallback` is selected once at import time when the
pandas/numpy/sklearn import probe fails (module tail, lines 170–181).  Its
`predict_game` builds `Prediction(...)` with the keyword arguments below; the
SQLAlchemy declarative constructor accepts only declared columns and raises
`TypeError` for any other keyword, which the embedding renders as the kwarg
check of `construct_prediction_row`. -/

/-- The declared columns of the Prediction model (prediction.py). -/
def prediction_columns : List String :=
  ["id", "game_id", "predicted_winner", "confidence", "predicted_spread",
   "created_at", "factors", "news_sentiment", "reddit_sentiment"]

/-- The keyword arguments `NFLPredictorFallback.predict_game` and
`_create_default_prediction` pass to `Prediction(...)`. -/
def fallback_prediction_kwargs : List String :=
  ["game_id", "predicted_winner", "confidence_score", "predicted_home_score",
   "predicted_away_score", "prediction_method", "created_at"]

/-- The field values the fallback predictor tries to store. -/
structure FallbackPrediction where
  game_id : Nat
  predicted_winner : String
  confidence_score : ℚ
  predicted_home_score : Int
  predicted_away_score : Int
  prediction_method : String
deriving DecidableEq, Repr

/-- Embeds `Prediction(**kwargs)`: ok only when every keyword is a declared column,
else the constructor raises `TypeError`. -/
def construct_prediction_row (kwargs : List String) (p : FallbackPrediction) :
    Except Unit FallbackPrediction :=
  if kwargs.all (fun k => prediction_columns.contains k) then Except.ok p
  else Except.error ()

/-- The stats dict of `_get_simple_team_stats`: last 5 games involving the team
(not filtered by completion status), wins/points counted only over games with
both scores, but averaged over the full 5-game window. -/
structure FallbackTeamStats where
  win_pct : ℚ
  avg_points_for : ℚ
  avg_points_against : ℚ
  recent_games : Nat
deriving DecidableEq, Repr

/-- Embeds `_get_simple_team_stats`. -/
def get_simple_team_stats (games : List Game) (team_name : String) : FallbackTeamStats :=
  let recent := (games.filter (fun g => g.home_team == team_name || g.away_team == team_name)).take 5
  let valid := recent.filter has_valid_scores
  let wins := valid.countP (team_won team_name)
  let points_for : Int := valid.foldl
    (fun acc g => acc + (if team_name = g.home_team then g.home_score.getD 0 else g.away_score.getD 0)) 0
  let points_against : Int := valid.foldl
    (fun acc g => acc + (if team_name = g.home_team then g.away_score.getD 0 else g.home_score.getD 0)) 0
  let total_games := recent.length
  { win_pct := if total_games > 0 then (wins : ℚ) / (total_games : ℚ) else 1/2
  , avg_points_for := if total_games > 0 then (points_for : ℚ) / (total_games : ℚ) else 21
  , avg_points_against := if total_games > 0 then (points_against : ℚ) / (total_games : ℚ) else 21
  , recent_games := total_games }

/-- Embeds `_calculate_simple_win_probability`: the arithmetic blend
win_rate×0.4 + home_advantage×0.3 + (0.5 + capped scoring factor)×0.3,
clipped to [0.1, 0.9]. -/
def calculate_simple_win_probability
    (home_stats away_stats : FallbackTeamStats) (home_advantage : ℚ) : ℚ :=
  let home_scoring_diff := home_stats.avg_points_for - home_stats.avg_points_against
  let away_scoring_diff := away_stats.avg_points_for - away_stats.avg_points_against
  let scoring_factor0 := (home_scoring_diff - away_scoring_diff) / 50
  let scoring_factor := max (-(3/10)) (min (3/10) scoring_factor0)
  let win_prob := home_stats.win_pct * (4/10) + home_advantage * (3/10) +
                  (1/2 + scoring_factor) * (3/10)
  max (1/10) (min (9/10) win_prob)

/-- Embeds `_predict_scores`: base scores from the win probability plus the injected
`random.randint` variances, floored at 10.  (Python's `int()` truncates toward
zero; under the `max 10` clip the floor and the truncation agree.) -/
def predict_scores (home_win_prob : ℚ) (rng_home rng_away : Int) : Int × Int :=
  let base_home := 22 + (home_win_prob - 1/2) * 10
  let base_away := 22 + (1/2 - home_win_prob) * 10
  (max 10 ⌊base_home + (rng_home : ℚ)⌋, max 10 ⌊base_away + (rng_away : ℚ)⌋)

/-- The confidence the last-resort `_create_default_prediction` passes
(`confidence_score=0.55`). -/
def default_confidence_score : ℚ := 11/20

/-- Embeds `_create_default_prediction`: the default row, built through the same
`Prediction(...)` constructor (and the same undeclared keywords). -/
def create_default_prediction (g : Game) : Except Unit FallbackPrediction :=
  construct_prediction_row fallback_prediction_kwargs
    { game_id := g.id, predicted_winner := g.home_team
    , confidence_score := default_confidence_score
    , predicted_home_score := 21, predicted_away_score := 17
    , prediction_method := "default_fallback" }

/-- Embeds `NFLPredictorFallback.predict_game`: no existing-prediction check and no
persistence; compute the blend, build the row, and on any exception fall back
to `_create_default_prediction` (whose own exception propagates).  `db_read`
is the availability of the game store its stats queries hit; `rng_home`/
`rng_away` are the injected `random.randint(-3, 7)` / `random.randint(-5, 5)`
draws. -/
def predict_game_fallback (games : List Game) (db_read : Bool)
    (rng_home rng_away : Int) (g : Game) : Except Unit FallbackPrediction :=
  let attempt : Except Unit FallbackPrediction :=
    if db_read = false then Except.error ()
    else
      let home_advantage : ℚ := 11/20
      let home_stats := get_simple_team_stats games g.home_team
      let away_stats := get_simple_team_stats games g.away_team
      let home_win_prob := calculate_simple_win_probability home_stats away_stats home_advantage
      let predicted_winner := if home_win_prob > 1/2 then g.home_team else g.away_team
      let confidence := max home_win_prob (1 - home_win_prob)
      let scores := predict_scores home_win_prob rng_home rng_away
      construct_prediction_row fallback_prediction_kwargs
        { game_id := g.id, predicted_winner := predicted_winner
        , confidence_score := confidence
        , predicted_home_score := scores.1, predicted_away_score := scores.2
        , prediction_method := "simple_heuristic" }
  match attempt with
  | Except.ok p => Except.ok p
  | Except.error _ => create_default_prediction g

/-! ## Concrete example inputs used by witnesses and counterexamples -/

/-- One completed game "Alpha" 30–10 "Beta" (Alpha at home), dated so a list of
them is date-descending. -/
def alpha_game (i : Nat) : Game :=
  { id := i, week := 1, season := 2024, home_team := "Alpha", away_team := "Beta"
  , home_score := some 30, away_score := some 10, game_date := 100 - i
  , status := GameStatus.completed }

/-- Ten completed historical games all won by "Alpha" 30–10. -/
def alpha_games : List Game := (List.range 10).map alpha_game

/-- An upcoming, not-yet-predicted game with id 42. -/
def sample_game : Game :=
  { id := 42, week := 1, season := 2025, home_team := "Alpha", away_team := "Beta"
  , home_score := none, away_score := none, game_date := 200
  , status := GameStatus.scheduled }

/-- A sample fitted-classifier oracle. -/
def sample_model : GameFeatures → ℚ := fun _ => 1/2

/-- A scraper state whose failure counter is at the threshold (so sentiment is
served without outbound requests) and whose cache is empty. -/
def rs_quiet : RedditState :=
  { now := 0, last_request_time := 0, failed_requests := 10
  , cache_last_updated := none, cache_analysis := none, total_posts_analyzed := 0
  , responses := [] }

/-- An engine over empty stores with a working database. -/
def s_empty : EngineState :=
  { games := [], preds := [], next_id := 7, db_read := true, db_write := true
  , trained := false, reddit := rs_quiet }

/-- The same engine with the store unavailable for writes. -/
def s_nowrite : EngineState := { s_empty with db_write := false }

/-- A prediction already stored for game 42 (produced earlier by some path). -/
def p_pre : Prediction :=
  { id := 3, game_id := 42, predicted_winner := "Beta", confidence := 9/10
  , predicted_spread := -4, factors := prediction_factors
  , news_sentiment := some 0, reddit_sentiment := some (1/2) }

/-- An engine whose prediction store already holds `p_pre`. -/
def s_pre : EngineState := { s_empty with preds := [p_pre] }

/-- A scraper state about to receive non-403/429 failure statuses: the retry
loop fires its attempts with no sleep between them. -/
def c6_state : RedditState :=
  { now := 0, last_request_time := 0, failed_requests := 0
  , cache_last_updated := none, cache_analysis := none, total_posts_analyzed := 0
  , responses := [RResp.other_status, RResp.other_status, RResp.other_status] }

/-- A sample cached sentiment report. -/
def sample_report : Report := { fallback_data with status := RStatus.live_data }

/-- The heuristic prediction the engine stores for `sample_game` on `s_empty`. -/
def c10_pred : Prediction :=
  { id := 7, game_id := 42, predicted_winner := "Alpha", confidence := 3/5
  , predicted_spread := 3, factors := heuristic_factors
  , news_sentiment := none, reddit_sentiment := none }

/-- The engine state after persisting `c10_pred`. -/
def c10_state : EngineState := { s_empty with preds := [c10_pred], next_id := 8 }

/-- Scraper state with a report cached at time 0, read 23 hours later. -/
def c8_fresh : RedditState :=
  { now := 23 * 3600, last_request_time := 0, failed_requests := 0
  , cache_last_updated := some 0, cache_analysis := some sample_report
  , total_posts_analyzed := 0, responses := [] }

/-- Scraper state with a report cached at time 0, read 25 hours later. -/
def c8_stale : RedditState := { c8_fresh with now := 25 * 3600 }

/-! ## Theorems -/

/-- The win-rate formula is a proportion: nonnegative and at most 1. -/
lemma calculate_win_percentage_bounds (team : String) (gs : List Game) :
    0 ≤ calculate_win_percentage team gs ∧ calculate_win_percentage team gs ≤ 1 := by
  unfold calculate_win_percentage
  dsimp only
  split_ifs with h
  · constructor
    · positivity
    · rw [div_le_one (by exact_mod_cast h)]
      exact_mod_cast List.countP_le_length _
  · norm_num

/-- Claim C4: TeamStatsAggregator computes each snapshot over the team's most
recent ≤16 completed games; win percentage is exactly
wins / games-with-valid-scores, lies in [0,1], and defaults to 0.5 with zero
valid games; points for/against are the plain means over the same window. -/
theorem team_stats_snapshot_correct (games : List Game) (team : String) :
    (team_games_query games team).length ≤ 16 ∧
    (∀ g ∈ team_games_query games team,
        g.status = GameStatus.completed ∧ (g.home_team = team ∨ g.away_team = team)) ∧
    0 ≤ (get_team_stats games team).win_pct ∧
    (get_team_stats games team).win_pct ≤ 1 ∧
    (0 < ((team_games_query games team).filter has_valid_scores).length →
      (get_team_stats games team).win_pct =
        (((team_games_query games team).filter has_valid_scores).countP (team_won team) : ℚ) /
        (((team_games_query games team).filter has_valid_scores).length : ℚ)) ∧
    (((team_games_query games team).filter has_valid_scores).length = 0 →
      (get_team_stats games team).win_pct = 1/2) ∧
    (team_games_query games team ≠ [] →
      (get_team_stats games team).points_for =
        (((team_games_query games team).foldl
          (fun acc g => acc + (if g.home_team = team then g.home_score.getD 0 else g.away_score.getD 0)) 0 : Int) : ℚ) /
        ((team_games_query games team).length : ℚ) ∧
      (get_team_stats games team).points_against =
        (((team_games_query games team).foldl
          (fun acc g => acc + (if g.home_team = team then g.away_score.getD 0 else g.home_score.getD 0)) 0 : Int) : ℚ) /
        ((team_games_query games team).length : ℚ)) := by
  refine ⟨?_, ?_, ?_, ?_, ?_, ?_, ?_⟩
  · unfold team_games_query
    rw [List.length_take]
    exact min_le_left _ _
  · intro g hg
    unfold team_games_query at hg
    have hmem := List.take_subset _ _ hg
    have hp := (List.mem_filter.mp hmem).2
    simp only [Bool.and_eq_true, Bool.or_eq_true, beq_iff_eq] at hp
    exact ⟨hp.2, hp.1⟩
  · unfold get_team_stats
    dsimp only
    split_ifs with h
    · norm_num
    · exact (calculate_win_percentage_bounds team _).1
  · unfold get_team_stats
    dsimp only
    split_ifs with h
    · norm_num
    · exact (calculate_win_percentage_bounds team _).2
  · intro hv
    have hne : ¬ (team_games_query games team).isEmpty = true := by
      intro h0
      rw [List.isEmpty_iff] at h0
      rw [h0] at hv
      simp at hv
    unfold get_team_stats
    dsimp only
    rw [if_neg hne]
    unfold calculate_win_percentage
    dsimp only
    rw [if_pos hv]
  · intro h0
    unfold get_team_stats
    dsimp only
    split_ifs with h
    · rfl
    · unfold calculate_win_percentage
      dsimp only
      rw [if_neg (by omega)]
  · intro hne
    have hne' : ¬ (team_games_query games team).isEmpty = true := by
      rw [List.isEmpty_iff]; exact hne
    have hlen : 0 < (team_games_query games team).length := List.length_pos.mpr hne
    unfold get_team_stats
    dsimp only
    rw [if_neg hne']
    constructor
    · unfold calculate_points_for
      dsimp only
      rw [if_pos hlen]
    · unfold calculate_points_against
      dsimp only
      rw [if_pos hlen]

/-- Witness for C4: ten completed games all won by "Alpha" 30–10 give
win_pct = 1.0, points_for = 30.0, points_against = 10.0, by the exact formula
of the theorem. -/
theorem team_stats_snapshot_correct_witness :
    0 < ((team_games_query alpha_games ("Alpha")).filter has_valid_scores).length ∧
    (get_team_stats alpha_games ("Alpha")).win_pct =
      (((team_games_query alpha_games ("Alpha")).filter has_valid_scores).countP (team_won ("Alpha")) : ℚ) /
      (((team_games_query alpha_games ("Alpha")).filter has_valid_scores).length : ℚ) ∧
    (get_team_stats alpha_games ("Alpha")).win_pct = 1 ∧
    (get_team_stats alpha_games ("Alpha")).points_for = 30 ∧
    (get_team_stats alpha_games ("Alpha")).points_against = 10 :=
  ⟨by decide,
   (team_stats_snapshot_correct alpha_games ("Alpha")).2.2.2.2.1 (by decide),
   by norm_num [get_team_stats, team_games_query, alpha_games, alpha_game,
     calculate_win_percentage, calculate_points_for, calculate_points_against,
     calculate_last_5_performance, has_valid_scores, team_won, List.range_succ],
   by norm_num [get_team_stats, team_games_query, alpha_games, alpha_game,
     calculate_win_percentage, calculate_points_for, calculate_points_against,
     calculate_last_5_performance, has_valid_scores, team_won, List.range_succ],
   by norm_num [get_team_stats, team_games_query, alpha_games, alpha_game,
     calculate_win_percentage, calculate_points_for, calculate_points_against,
     calculate_last_5_performance, has_valid_scores, team_won, List.range_succ]⟩

/-- Claim C5: feature construction is a total function (hence deterministic and
never raising) producing the fixed 10-dimensional vector; the news-sentiment
feature is the neutral 0.0, and a team with no completed history contributes
the documented neutral team-stat defaults. -/
theorem feature_vector_construction (games : List Game) (rs : RedditState) (g : Game) :
    (prepare_game_data games rs g).1.to_vector.length = 10 ∧
    (prepare_game_data games rs g).1.news_sentiment = 0 ∧
    (team_games_query games g.home_team = [] →
      (prepare_game_data games rs g).1.home_team_win_pct = 1/2 ∧
      (prepare_game_data games rs g).1.home_team_points_for = 24 ∧
      (prepare_game_data games rs g).1.home_team_points_against = 24 ∧
      (prepare_game_data games rs g).1.home_team_last_5 = 1/2) ∧
    (team_games_query games g.away_team = [] →
      (prepare_game_data games rs g).1.away_team_win_pct = 1/2 ∧
      (prepare_game_data games rs g).1.away_team_points_for = 24 ∧
      (prepare_game_data games rs g).1.away_team_points_against = 24 ∧
      (prepare_game_data games rs g).1.away_team_last_5 = 1/2) := by
  refine ⟨rfl, rfl, ?_, ?_⟩
  · intro h
    have hq : (team_games_query games g.home_team).isEmpty := by
      rw [List.isEmpty_iff]; exact h
    simp [prepare_game_data, get_team_stats, hq]
  · intro h
    have hq : (team_games_query games g.away_team).isEmpty := by
      rw [List.isEmpty_iff]; exact h
    simp [prepare_game_data, get_team_stats, hq]

/-- Witness for C5: on empty stores the vector is the all-defaults row of
length 10. -/
theorem feature_vector_construction_witness :
    team_games_query [] sample_game.home_team = [] ∧
    (prepare_game_data [] rs_quiet sample_game).1.to_vector.length = 10 ∧
    (prepare_game_data [] rs_quiet sample_game).1.news_sentiment = 0 ∧
    (prepare_game_data [] rs_quiet sample_game).1.home_team_win_pct = 1/2 :=
  ⟨by decide,
   (feature_vector_construction [] rs_quiet sample_game).1,
   (feature_vector_construction [] rs_quiet sample_game).2.1,
   ((feature_vector_construction [] rs_quiet sample_game).2.2.1 (by decide)).1⟩

/-- Claim C8: with a cached report present, cache-or-fallback serves the cached
report exactly when its age is under the 24-hour freshness bound, and serves
the static fallback otherwise; it always serves some report (total function,
never an error). -/
theorem cache_freshness_boundary (s : RedditState) (t : ℚ) (rep : Report)
    (hu : s.cache_last_updated = some t) (ha : s.cache_analysis = some rep) :
    (get_cached_or_fallback_data s = { rep with status := RStatus.cached_data } ↔
      (s.now - t) / 3600 < 24) ∧
    (¬ (s.now - t) / 3600 < 24 → get_cached_or_fallback_data s = fallback_data) := by
  have hage : get_cache_age_hours s = some ((s.now - t) / 3600) := by
    unfold get_cache_age_hours
    rw [hu]
    rfl
  unfold get_cached_or_fallback_data
  rw [hu, ha, hage]
  dsimp only
  constructor
  · constructor
    · intro hres
      by_contra hstale
      rw [if_neg hstale] at hres
      have : fallback_data.status = RStatus.cached_data := by rw [hres]
      exact absurd this (by decide)
    · intro hfresh
      rw [if_pos hfresh]
  · intro hstale
    rw [if_neg hstale]

/-- Witness for C8: a report saved at time 0 is served from the cache at hour
23 and replaced by the static fallback at hour 25. -/
theorem cache_freshness_boundary_witness :
    (get_cached_or_fallback_data c8_fresh = { sample_report with status := RStatus.cached_data }) ∧
    (get_cached_or_fallback_data c8_stale = fallback_data) :=
  ⟨(cache_freshness_boundary c8_fresh 0 sample_report rfl rfl).1.mpr (by norm_num [c8_fresh]),
   (cache_freshness_boundary c8_stale 0 sample_report rfl rfl).2 (by norm_num [c8_stale, c8_fresh])⟩

/-- Claim C9 (code bug): the degraded-mode predictor cannot fulfil the
`predict_game(game) -> Prediction` contract at all: on every input it passes
keyword arguments (`confidence_score`, `predicted_home_score`,
`predicted_away_score`, `prediction_method`) that the Prediction model does not
declare, so the constructor raises `TypeError`, and the last-resort
`_create_default_prediction` raises the same way, letting the error escape. -/
theorem fallback_predictor_always_raises (games : List Game) (db_read : Bool)
    (rng_home rng_away : Int) (g : Game) :
    predict_game_fallback games db_read rng_home rng_away g = Except.error () := by
  have hbad : (fallback_prediction_kwargs.all
      (fun k => prediction_columns.contains k)) = false := by decide
  unfold predict_game_fallback create_default_prediction construct_prediction_row
  rw [hbad]
  cases db_read <;> simp

/-- Counterexample for C6: with non-403/429 failure statuses the retry loop
re-requests with no sleep at all, so one `_make_reddit_request` call fires
three outbound requests at the same instant (trace [3, 3, 3]); consecutive
requests are 0 < 3 time units apart, refuting the claimed minimum interval. -/
theorem min_interval_counterexample :
    (make_reddit_request c6_state (base_url ++ "/r/nfl/hot.json") 3).2.2 = [3, 3, 3] ∧
    (3 : ℚ) - 3 < min_request_interval := by
  constructor
  · norm_num [make_reddit_request, make_attempts, rate_limit_request, take_response,
      c6_state, min_request_interval]
  · norm_num [min_request_interval]

/-- Claim C6 (as amended): the 3-unit minimum inter-request interval is
enforced only before the first attempt of a call — the call sleeps so its
first outbound request happens no earlier than 3 units after the recorded
last-request timestamp; retry attempts within the call follow only their
per-status backoff and may be closer together. -/
theorem rate_limit_first_request (s : RedditState) (url : String) (n : Nat)
    (hn : 0 < n) :
    (make_reddit_request s url n).2.2.head? = some ((rate_limit_request s).now) ∧
    s.last_request_time + min_request_interval ≤ (rate_limit_request s).now := by
  constructor
  · obtain ⟨r, rfl⟩ : ∃ r, n = r + 1 := ⟨n - 1, by omega⟩
    unfold make_reddit_request
    rcases htr : take_response (rate_limit_request s) with ⟨resp, s1⟩
    cases resp <;> simp [make_attempts, htr]
  · unfold rate_limit_request
    dsimp only
    split_ifs with h
    · have hnow : s.now + (min_request_interval - (s.now - s.last_request_time)) =
          s.last_request_time + min_request_interval := by ring
      rw [hnow]
    · linarith [not_lt.mp h]

/-- Witness for the amended C6 at a concrete call. -/
theorem rate_limit_first_request_witness :
    0 < 3 ∧
    ((make_reddit_request c6_state (base_url ++ "/r/nfl/new.json") 3).2.2.head? =
        some ((rate_limit_request c6_state).now) ∧
     c6_state.last_request_time + min_request_interval ≤ (rate_limit_request c6_state).now) :=
  ⟨by decide, rate_limit_first_request c6_state (base_url ++ "/r/nfl/new.json") 3 (by decide)⟩

/-- A successful attempt inside the retry loop resets the process-wide failure
counter to zero. -/
lemma make_attempts_success_resets (r : Nat) :
    ∀ (s : RedditState) (attempt mr : Nat),
      ((make_attempts s attempt mr r).1).isSome = true →
      ((make_attempts s attempt mr r).2.1).failed_requests = 0 := by
  induction r with
  | zero =>
      intro s attempt mr h
      simp [make_attempts] at h
  | succ r ih =>
      intro s attempt mr h
      rcases htr : take_response s with ⟨resp, s1⟩
      rw [make_attempts] at h ⊢
      rw [htr] at h ⊢
      cases resp with
      | ok p => simp
      | forbidden =>
          simp only at h ⊢
          exact ih _ _ _ h
      | too_many =>
          simp only at h ⊢
          exact ih _ _ _ h
      | other_status =>
          simp only at h ⊢
          exact ih _ _ _ h
      | transport_error =>
          simp only at h ⊢
          exact ih _ _ _ h

/-- Claim C7: once the consecutive-failure counter has reached the threshold,
a sentiment fetch makes zero outbound requests and immediately serves the
cached-or-fallback report with the state untouched; and any successful request
resets the counter to zero (after which fetches go live again). -/
theorem failure_counter_short_circuit :
    (∀ (s : RedditState) (q : String),
        max_failed_requests ≤ s.failed_requests →
        get_nfl_sentiment s q = (get_cached_or_fallback_data s, s, [])) ∧
    (∀ (s : RedditState) (url : String) (n : Nat) (p : Payload)
        (s1 : RedditState) (ts : List ℚ),
        make_reddit_request s url n = (some p, s1, ts) →
        s1.failed_requests = 0) := by
  constructor
  · intro s q h
    unfold get_nfl_sentiment
    rw [if_pos h]
  · intro s url n p s1 ts h
    unfold make_reddit_request at h
    have hs : ((make_attempts (rate_limit_request s) 0 n n).1).isSome = true := by
      rw [h]
      rfl
    have h0 := make_attempts_success_resets n (rate_limit_request s) 0 n hs
    rw [h] at h0
    exact h0

/-- Witness for C7: at the threshold, the fetch is exactly the
cached-or-fallback report, the state, and an empty request trace. -/
theorem failure_counter_short_circuit_witness :
    max_failed_requests ≤ rs_quiet.failed_requests ∧
    get_nfl_sentiment rs_quiet ("NFL predictions") =
      (get_cached_or_fallback_data rs_quiet, rs_quiet, []) :=
  ⟨by decide, failure_counter_short_circuit.1 rs_quiet ("NFL predictions") (by decide)⟩

/-! ### Prediction-engine characterization lemmas -/

/-- Appending a prediction for a not-yet-predicted game makes it the lookup
result. -/
lemma lookup_prediction_append (ps : List Prediction) (q : Prediction) (gid : Nat)
    (h : lookup_prediction ps gid = none) (hq : q.game_id = gid) :
    lookup_prediction (ps ++ [q]) gid = some q := by
  induction ps with
  | nil => simp [lookup_prediction, List.find?, hq]
  | cons p rest ih =>
      simp only [lookup_prediction, List.cons_append, List.find?] at h ⊢
      cases hb : (p.game_id == gid) with
      | true =>
          rw [hb] at h
          dsimp only at h
          exact Option.noConfusion h
      | false =>
          rw [hb] at h
          dsimp only at h ⊢
          exact ih h

/-- A successful prediction-store lookup implies reads were available. -/
lemma query_prediction_ok {s : EngineState} {gid : Nat} {v : Option Prediction}
    (h : query_prediction s gid = Except.ok v) :
    s.db_read = true ∧ v = lookup_prediction s.preds gid := by
  unfold query_prediction at h
  split_ifs at h with hr
  injection h with h1
  exact ⟨hr, h1.symm⟩

/-- A failed prediction-store lookup leaves the state unchanged. -/
lemma query_prediction_error {s : EngineState} {gid : Nat} {s1 : EngineState}
    (h : query_prediction s gid = Except.error s1) : s1 = s := by
  unfold query_prediction at h
  split_ifs at h with hr
  injection h with h1
  exact h1.symm

/-- A failed completed-game count leaves the state unchanged. -/
lemma count_completed_error {s : EngineState} {s1 : EngineState}
    (h : count_completed s = Except.error s1) : s1 = s := by
  unfold count_completed at h
  split_ifs at h with hr
  injection h with h1
  exact h1.symm

/-- A successful insert appended the freshly-id'd row and required writes. -/
lemma insert_prediction_ok {s : EngineState} {p q : Prediction} {s' : EngineState}
    (h : insert_prediction s p = Except.ok (q, s')) :
    s.db_write = true ∧ q.game_id = p.game_id ∧ q.confidence = p.confidence ∧
    s' = { s with preds := s.preds ++ [q], next_id := s.next_id + 1 } := by
  unfold insert_prediction at h
  split_ifs at h with hw
  injection h with h1
  have hq := congrArg Prod.fst h1
  have hs := congrArg Prod.snd h1
  dsimp at hq hs
  subst hq
  refine ⟨hw, rfl, rfl, ?_⟩
  rw [← hs]

/-- A failed insert means writes were unavailable and nothing changed. -/
lemma insert_prediction_error {s : EngineState} {p : Prediction} {s1 : EngineState}
    (h : insert_prediction s p = Except.error s1) :
    s1 = s ∧ s.db_write = false := by
  unfold insert_prediction at h
  split_ifs at h with hw
  injection h with h1
  refine ⟨h1.symm, ?_⟩
  simp only [Bool.not_eq_true] at hw
  exact hw

/-- What a successful `_simple_prediction` call did: either it returned the
already-stored row untouched, or it appended the heuristic row (confidence
0.6) — in both cases the returned row is the stored lookup result. -/
lemma simple_prediction_ok_char {s : EngineState} {g : Game} {pr : Prediction}
    {s' : EngineState} (h : simple_prediction s g = Except.ok (pr, s')) :
    s.db_read = true ∧ s'.db_read = true ∧ s'.db_write = s.db_write ∧
    lookup_prediction s'.preds g.id = some pr ∧
    ((s'.preds = s.preds ∧ pr ∈ s.preds) ∨
     (s.db_write = true ∧ s'.preds = s.preds ++ [pr] ∧ pr.confidence = 3/5)) := by
  unfold simple_prediction at h
  cases hq : query_prediction s g.id with
  | error e =>
      rw [hq] at h
      simp [Bind.bind, Except.bind] at h
  | ok existing =>
      rw [hq] at h
      simp only [Bind.bind, Except.bind] at h
      obtain ⟨hr, hv⟩ := query_prediction_ok hq
      cases existing with
      | some p0 =>
          try simp only at h
          injection h with h1
          have hpr := congrArg Prod.fst h1
          have hst := congrArg Prod.snd h1
          dsimp at hpr hst
          subst hpr
          subst hst
          exact ⟨hr, hr, rfl, hv.symm, Or.inl ⟨rfl, List.mem_of_find?_eq_some hv.symm⟩⟩
      | none =>
          try simp only at h
          obtain ⟨hw, hgid, hconf, hs'⟩ := insert_prediction_ok h
          subst hs'
          exact ⟨hr, hr, rfl, lookup_prediction_append _ _ _ hv.symm hgid,
                 Or.inr ⟨hw, rfl, hconf⟩⟩

/-- A failed `_simple_prediction` call (store unavailable) changed nothing. -/
lemma simple_prediction_error_char {s : EngineState} {g : Game} {s1 : EngineState}
    (h : simple_prediction s g = Except.error s1) : s1 = s := by
  unfold simple_prediction at h
  cases hq : query_prediction s g.id with
  | error e =>
      rw [hq] at h
      simp only [Bind.bind, Except.bind] at h
      injection h with h1
      rw [← h1]
      exact query_prediction_error hq
  | ok existing =>
      rw [hq] at h
      simp only [Bind.bind, Except.bind] at h
      cases existing with
      | some p0 =>
          try simp only at h
          exact Except.noConfusion h
      | none =>
          try simp only at h
          exact (insert_prediction_error h).1

/-- Training (successful) touches only the scraper state and the trained flag. -/
lemma train_model_ok_fields {s s2 : EngineState} (h : train_model s = Except.ok s2) :
    s2.preds = s.preds ∧ s2.db_read = s.db_read ∧ s2.db_write = s.db_write ∧
    s2.games = s.games ∧ s2.next_id = s.next_id := by
  unfold train_model at h
  dsimp only at h
  split_ifs at h with h1 h2 h3
  all_goals injection h with h4
  all_goals rw [← h4]
  all_goals exact ⟨rfl, rfl, rfl, rfl, rfl⟩

/-- Training (raising) also touches only the scraper state. -/
lemma train_model_error_fields {s s2 : EngineState} (h : train_model s = Except.error s2) :
    s2.preds = s.preds ∧ s2.db_read = s.db_read ∧ s2.db_write = s.db_write ∧
    s2.games = s.games ∧ s2.next_id = s.next_id := by
  unfold train_model at h
  dsimp only at h
  split_ifs at h with h1 h2 h3
  all_goals injection h with h4
  all_goals rw [← h4]
  all_goals exact ⟨rfl, rfl, rfl, rfl, rfl⟩

/-- What a successful `try`-body run of `predict_game` did: returned the stored
row untouched, or appended one whose confidence is the heuristic 0.6 or the
model's winning-class probability. -/
lemma predict_game_try_ok_char {model : GameFeatures → ℚ} {s : EngineState} {g : Game}
    {pr : Prediction} {s' : EngineState}
    (h : predict_game_try model s g = Except.ok (pr, s')) :
    s'.db_read = true ∧ s'.db_write = s.db_write ∧
    lookup_prediction s'.preds g.id = some pr ∧
    ((s'.preds = s.preds ∧ pr ∈ s.preds) ∨
     (s.db_write = true ∧ s'.preds = s.preds ++ [pr] ∧
        (pr.confidence = 3/5 ∨
         ∃ X : GameFeatures, pr.confidence = max (model X) (1 - model X)))) := by
  unfold predict_game_try at h
  cases hq : query_prediction s g.id with
  | error e =>
      rw [hq] at h
      simp [Bind.bind, Except.bind] at h
  | ok existing =>
      rw [hq] at h
      simp only [Bind.bind, Except.bind] at h
      obtain ⟨hr, hv⟩ := query_prediction_ok hq
      cases existing with
      | some p0 =>
          try simp only at h
          injection h with h1
          have hpr := congrArg Prod.fst h1
          have hst := congrArg Prod.snd h1
          dsimp at hpr hst
          subst hpr
          subst hst
          exact ⟨hr, rfl, hv.symm, Or.inl ⟨rfl, List.mem_of_find?_eq_some hv.symm⟩⟩
      | none =>
          try simp only at h
          cases hcnt : count_completed s with
          | error e =>
              rw [hcnt] at h
              simp only [Except.bind] at h
              exact Except.noConfusion h
          | ok n =>
              rw [hcnt] at h
              simp only [Except.bind] at h
              split at h
              · have hc := simple_prediction_ok_char h
                refine ⟨hc.2.1, hc.2.2.1, hc.2.2.2.1, ?_⟩
                rcases hc.2.2.2.2 with ⟨h1, h2⟩ | ⟨hw, h1, h2⟩
                · exact Or.inl ⟨h1, h2⟩
                · exact Or.inr ⟨hw, h1, Or.inl h2⟩
              · split at h
                · try simp only [Except.bind] at h
                  obtain ⟨hw, hgid, hconf, hs'⟩ := insert_prediction_ok h
                  subst hs'
                  refine ⟨hr, rfl, lookup_prediction_append _ _ _ hv.symm hgid,
                          Or.inr ⟨hw, rfl, Or.inr ⟨_, hconf⟩⟩⟩
                · cases htm : train_model { s with reddit := (prepare_game_data s.games s.reddit g).2 } with
                  | error e2 =>
                      rw [htm] at h
                      simp only [Except.bind] at h
                      exact Except.noConfusion h
                  | ok s2 =>
                      rw [htm] at h
                      simp only [Except.bind] at h
                      obtain ⟨hp2, hr2, hw2, _, _⟩ := train_model_ok_fields htm
                      obtain ⟨hw, hgid, hconf, hs'⟩ := insert_prediction_ok h
                      subst hs'
                      refine ⟨by rw [hr2]; exact hr, by rw [hw2], ?_, ?_⟩
                      · rw [hp2]
                        exact lookup_prediction_append _ _ _ hv.symm hgid
                      · refine Or.inr ⟨by rw [← hw2]; exact hw, by rw [hp2], Or.inr ⟨_, hconf⟩⟩

/-- A raising `try`-body run of `predict_game` leaves stores and availability
flags as they were (only scraper state / trained flag may have moved). -/
lemma predict_game_try_error_char {model : GameFeatures → ℚ} {s : EngineState} {g : Game}
    {s1 : EngineState} (h : predict_game_try model s g = Except.error s1) :
    s1.preds = s.preds ∧ s1.db_read = s.db_read ∧ s1.db_write = s.db_write := by
  unfold predict_game_try at h
  cases hq : query_prediction s g.id with
  | error e =>
      rw [hq] at h
      simp only [Bind.bind, Except.bind] at h
      injection h with h1
      rw [← h1, query_prediction_error hq]
      exact ⟨rfl, rfl, rfl⟩
  | ok existing =>
      rw [hq] at h
      simp only [Bind.bind, Except.bind] at h
      obtain ⟨hr, hv⟩ := query_prediction_ok hq
      cases existing with
      | some p0 =>
          try simp only at h
          exact Except.noConfusion h
      | none =>
          try simp only at h
          cases hcnt : count_completed s with
          | error e =>
              rw [hcnt] at h
              simp only [Except.bind] at h
              injection h with h1
              rw [← h1, count_completed_error hcnt]
              exact ⟨rfl, rfl, rfl⟩
          | ok n =>
              rw [hcnt] at h
              simp only [Except.bind] at h
              split at h
              · rw [simple_prediction_error_char h]
                exact ⟨rfl, rfl, rfl⟩
              · split at h
                · try simp only [Except.bind] at h
                  obtain ⟨h1, _⟩ := insert_prediction_error h
                  rw [h1]
                  exact ⟨rfl, rfl, rfl⟩
                · cases htm : train_model { s with reddit := (prepare_game_data s.games s.reddit g).2 } with
                  | error e2 =>
                      rw [htm] at h
                      simp only [Except.bind] at h
                      injection h with h1
                      obtain ⟨hp2, hr2, hw2, _, _⟩ := train_model_error_fields htm
                      rw [← h1]
                      exact ⟨hp2, hr2, hw2⟩
                  | ok s2 =>
                      rw [htm] at h
                      simp only [Except.bind] at h
                      obtain ⟨h1, _⟩ := insert_prediction_error h
                      obtain ⟨hp2, hr2, hw2, _, _⟩ := train_model_ok_fields htm
                      rw [h1]
                      exact ⟨hp2, hr2, hw2⟩

/-- With a stored prediction for the game and reads available, `predict_game`
returns it and changes nothing. -/
lemma predict_game_of_found {model : GameFeatures → ℚ} {s : EngineState} {g : Game}
    {pr : Prediction} (hr : s.db_read = true)
    (hl : lookup_prediction s.preds g.id = some pr) :
    predict_game model s g = Except.ok (pr, s) := by
  simp [predict_game, predict_game_try, query_prediction, hr, hl, Bind.bind, Except.bind]

/-- Any successful `predict_game` run leaves the returned row stored for the
game id, with reads still available, and its confidence either inherited,
heuristic, or the model's winning-class probability. -/
lemma predict_game_ok_char {model : GameFeatures → ℚ} {s : EngineState} {g : Game}
    {pr : Prediction} {s' : EngineState}
    (h : predict_game model s g = Except.ok (pr, s')) :
    s'.db_read = true ∧ lookup_prediction s'.preds g.id = some pr ∧
    (pr ∈ s.preds ∨ pr.confidence = 3/5 ∨
      ∃ X : GameFeatures, pr.confidence = max (model X) (1 - model X)) ∧
    (s'.preds = s.preds ∨ s'.preds = s.preds ++ [pr]) := by
  unfold predict_game at h
  cases htry : predict_game_try model s g with
  | ok r =>
      rw [htry] at h
      injection h with h1
      rw [h1] at htry
      obtain ⟨hr, hw, hl, hcases⟩ := predict_game_try_ok_char htry
      refine ⟨hr, hl, ?_, ?_⟩
      · rcases hcases with ⟨_, hmem⟩ | ⟨_, _, hconf⟩
        · exact Or.inl hmem
        · exact Or.inr hconf
      · rcases hcases with ⟨hpeq, _⟩ | ⟨_, happ, _⟩
        · exact Or.inl hpeq
        · exact Or.inr happ
  | error s1 =>
      rw [htry] at h
      obtain ⟨hp1, hr1, hw1⟩ := predict_game_try_error_char htry
      have hc := simple_prediction_ok_char h
      refine ⟨hc.2.1, hc.2.2.2.1, ?_, ?_⟩
      · rcases hc.2.2.2.2 with ⟨_, hmem⟩ | ⟨_, _, hconf⟩
        · exact Or.inl (hp1 ▸ hmem)
        · exact Or.inr (Or.inl hconf)
      · rcases hc.2.2.2.2 with ⟨hpeq, _⟩ | ⟨_, happ, _⟩
        · exact Or.inl (by rw [hpeq, hp1])
        · exact Or.inr (by rw [happ, hp1])

/-- With writes unavailable and no stored row, `_simple_prediction`'s commit
raises and the exception escapes. -/
lemma simple_prediction_nowrite {s : EngineState} {g : Game}
    (hr : s.db_read = true) (hw : s.db_write = false)
    (hl : lookup_prediction s.preds g.id = none) :
    simple_prediction s g = Except.error s := by
  simp [simple_prediction, query_prediction, insert_prediction, hr, hl, hw,
    Bind.bind, Except.bind]

/-- Claim C1: a stored prediction short-circuits `predict_game`, which returns
it with the state untouched (no second insert); consequently, a second call on
the state produced by any successful call returns the identical prediction —
id and all field values — whatever path produced it. -/
theorem predict_game_idempotent (model : GameFeatures → ℚ) (s : EngineState) (g : Game) :
    (∀ p0 : Prediction, s.db_read = true →
        lookup_prediction s.preds g.id = some p0 →
        predict_game model s g = Except.ok (p0, s)) ∧
    (∀ (pr : Prediction) (s' : EngineState),
        predict_game model s g = Except.ok (pr, s') →
        predict_game model s' g = Except.ok (pr, s')) := by
  constructor
  · intro p0 hr hl
    exact predict_game_of_found hr hl
  · intro pr s' h
    obtain ⟨hr, hl, _, _⟩ := predict_game_ok_char h
    exact predict_game_of_found hr hl

/-- Witness for C1: with `p_pre` already stored for game 42, `predict_game`
returns exactly `p_pre` and leaves the state unchanged. -/
theorem predict_game_idempotent_witness :
    s_pre.db_read = true ∧
    lookup_prediction s_pre.preds sample_game.id = some p_pre ∧
    predict_game sample_model s_pre sample_game = Except.ok (p_pre, s_pre) := by
  have hl : lookup_prediction s_pre.preds sample_game.id = some p_pre := by
    simp [lookup_prediction, s_pre, s_empty, p_pre, sample_game, List.find?]
  exact ⟨rfl, hl,
    (predict_game_idempotent sample_model s_pre sample_game).1 p_pre rfl hl⟩

/-- Claim C2: for a game with no stored prediction, when the store cannot
persist (writes unavailable during insert), `predict_game` raises to its
caller — the model-path commit failure is caught, but the fallback heuristic
commit fails too and that exception escapes. -/
theorem persistence_failure_surfaced (model : GameFeatures → ℚ) (s : EngineState)
    (g : Game) (hr : s.db_read = true) (hw : s.db_write = false)
    (hl : lookup_prediction s.preds g.id = none) :
    ∃ s1, predict_game model s g = Except.error s1 := by
  unfold predict_game
  cases htry : predict_game_try model s g with
  | ok r =>
      exfalso
      obtain ⟨pr, s'⟩ := r
      obtain ⟨_, _, hlk, hcases⟩ := predict_game_try_ok_char htry
      rcases hcases with ⟨hpeq, _⟩ | ⟨hwt, _, _⟩
      · rw [hpeq, hl] at hlk
        exact Option.noConfusion hlk
      · rw [hw] at hwt
        exact Bool.noConfusion hwt
  | error s1 =>
      obtain ⟨hp1, hr1, hw1⟩ := predict_game_try_error_char htry
      exact ⟨s1, simple_prediction_nowrite (by rw [hr1]; exact hr)
        (by rw [hw1]; exact hw) (by rw [hp1]; exact hl)⟩

/-- Witness for C2: on empty stores with writes down, the call ends in an
error. -/
theorem persistence_failure_surfaced_witness :
    s_nowrite.db_read = true ∧ s_nowrite.db_write = false ∧
    lookup_prediction s_nowrite.preds sample_game.id = none ∧
    ∃ s1, predict_game sample_model s_nowrite sample_game = Except.error s1 :=
  ⟨rfl, rfl, rfl,
   persistence_failure_surfaced sample_model s_nowrite sample_game rfl rfl rfl⟩

/-- Claim C3: with no stored prediction and fewer than 5 completed historical
games, `predict_game` takes the heuristic fallback path: it persists and
returns a prediction with winner = home team, confidence 0.6, spread 3.0, and
heuristic-tagged factors. -/
theorem heuristic_fallback_prediction (model : GameFeatures → ℚ) (s : EngineState)
    (g : Game) (hr : s.db_read = true) (hw : s.db_write = true)
    (hl : lookup_prediction s.preds g.id = none)
    (hcount : (s.games.filter (fun x => x.status == GameStatus.completed)).length < 5) :
    predict_game model s g =
      Except.ok
        ({ id := s.next_id, game_id := g.id, predicted_winner := g.home_team
         , confidence := 3/5, predicted_spread := 3, factors := heuristic_factors
         , news_sentiment := none, reddit_sentiment := none },
         { s with
             preds := s.preds ++
               [{ id := s.next_id, game_id := g.id, predicted_winner := g.home_team
                , confidence := 3/5, predicted_spread := 3, factors := heuristic_factors
                , news_sentiment := none, reddit_sentiment := none }]
             , next_id := s.next_id + 1 }) := by
  unfold predict_game predict_game_try simple_prediction count_completed
    query_prediction insert_prediction
  simp [hr, hl, hw, hcount, Bind.bind, Except.bind]

/-- Witness for C3: the scheduled game 42 on empty stores gets the heuristic
prediction ("Alpha" at confidence 0.6, spread 3). -/
theorem heuristic_fallback_prediction_witness :
    lookup_prediction s_empty.preds sample_game.id = none ∧
    (s_empty.games.filter (fun x => x.status == GameStatus.completed)).length < 5 ∧
    predict_game sample_model s_empty sample_game =
      Except.ok
        ({ id := s_empty.next_id, game_id := sample_game.id
         , predicted_winner := sample_game.home_team
         , confidence := 3/5, predicted_spread := 3, factors := heuristic_factors
         , news_sentiment := none, reddit_sentiment := none },
         { s_empty with
             preds := s_empty.preds ++
               [{ id := s_empty.next_id, game_id := sample_game.id
                , predicted_winner := sample_game.home_team
                , confidence := 3/5, predicted_spread := 3, factors := heuristic_factors
                , news_sentiment := none, reddit_sentiment := none }]
             , next_id := s_empty.next_id + 1 }) :=
  ⟨rfl, by decide,
   heuristic_fallback_prediction sample_model s_empty sample_game rfl rfl rfl (by decide)⟩

/-- The degraded predictor's blend is clipped to [0.1, 0.9]. -/
lemma simple_win_probability_bounds (hs as2 : FallbackTeamStats) (adv : ℚ) :
    1/10 ≤ calculate_simple_win_probability hs as2 adv ∧
    calculate_simple_win_probability hs as2 adv ≤ 9/10 := by
  unfold calculate_simple_win_probability
  dsimp only
  constructor
  · exact le_max_left _ _
  · apply max_le
    · norm_num
    · exact min_le_left _ _

/-- Claim C10: every prediction produced by `predict_game` has confidence in
[0.5, 1] — the model path takes the larger of the two class probabilities,
the heuristic path fixes 0.6, rows already stored keep their (invariant)
confidence; the degraded engine's computed confidence max(p, 1−p) with p
clipped to [0.1, 0.9] and its last-resort default 0.55 lie in the same range. -/
theorem prediction_confidence_in_range :
    (∀ (model : GameFeatures → ℚ) (s : EngineState) (g : Game)
        (pr : Prediction) (s' : EngineState),
        (∀ X : GameFeatures, 0 ≤ model X ∧ model X ≤ 1) →
        (∀ p ∈ s.preds, 1/2 ≤ p.confidence ∧ p.confidence ≤ 1) →
        predict_game model s g = Except.ok (pr, s') →
        (1/2 ≤ pr.confidence ∧ pr.confidence ≤ 1) ∧
        (∀ p ∈ s'.preds, 1/2 ≤ p.confidence ∧ p.confidence ≤ 1)) ∧
    (∀ (hs as2 : FallbackTeamStats) (adv : ℚ),
        1/2 ≤ max (calculate_simple_win_probability hs as2 adv)
                (1 - calculate_simple_win_probability hs as2 adv) ∧
        max (calculate_simple_win_probability hs as2 adv)
          (1 - calculate_simple_win_probability hs as2 adv) ≤ 1) ∧
    (1/2 ≤ default_confidence_score ∧ default_confidence_score ≤ 1) := by
  refine ⟨?_, ?_, ?_⟩
  · intro model s g pr s' hm hinv h
    obtain ⟨_, _, hconf, hpreds⟩ := predict_game_ok_char h
    have hpr : 1/2 ≤ pr.confidence ∧ pr.confidence ≤ 1 := by
      rcases hconf with hmem | hheur | ⟨X, hX⟩
      · exact hinv pr hmem
      · rw [hheur]
        norm_num
      · obtain ⟨h0, h1⟩ := hm X
        rw [hX]
        constructor
        · rcases le_total (model X) (1/2) with hc | hc
          · exact le_trans (by linarith) (le_max_right (model X) (1 - model X))
          · exact le_trans hc (le_max_left _ _)
        · exact max_le h1 (by linarith)
    refine ⟨hpr, ?_⟩
    intro p hp
    rcases hpreds with hpeq | happ
    · exact hinv p (hpeq ▸ hp)
    · rw [happ] at hp
      rcases List.mem_append.mp hp with hp1 | hp2
      · exact hinv p hp1
      · rw [List.mem_singleton.mp hp2]
        exact hpr
  · intro hs as2 adv
    obtain ⟨hlo, hhi⟩ := simple_win_probability_bounds hs as2 adv
    constructor
    · rcases le_total (calculate_simple_win_probability hs as2 adv) (1/2) with hc | hc
      · exact le_trans (by linarith)
          (le_max_right (calculate_simple_win_probability hs as2 adv)
            (1 - calculate_simple_win_probability hs as2 adv))
      · exact le_trans hc (le_max_left _ _)
    · apply max_le
      · linarith
      · linarith
  · norm_num [default_confidence_score]

/-- Witness for C10: the concrete heuristic run on empty stores produces
confidence 0.6 ∈ [0.5, 1], and the store invariant holds afterwards. -/
theorem prediction_confidence_in_range_witness :
    predict_game sample_model s_empty sample_game = Except.ok (c10_pred, c10_state) ∧
    (1/2 ≤ c10_pred.confidence ∧ c10_pred.confidence ≤ 1) ∧
    (∀ p ∈ c10_state.preds, 1/2 ≤ p.confidence ∧ p.confidence ≤ 1) := by
  have heq : predict_game sample_model s_empty sample_game = Except.ok (c10_pred, c10_state) := by
    norm_num [predict_game, predict_game_try, simple_prediction, query_prediction,
      count_completed, insert_prediction, lookup_prediction, s_empty, sample_game,
      c10_pred, c10_state, rs_quiet, Bind.bind, Except.bind]
  have hmain := prediction_confidence_in_range.1 sample_model s_empty sample_game
    c10_pred c10_state (fun X => by norm_num [sample_model]) (by simp [s_empty]) heq
  exact ⟨heq, hmain.1, hmain.2⟩

end NFLPicks
